import Mathlib

/-!
Verification development for the Cave Bat game core
(src/cave_bat/config.py, utils.py, entities.py, game.py).

Modelling conventions:
* Python floats are modelled as exact rationals (`ℚ`); decimal constants
  such as 0.8 or 1.6 denote the corresponding exact rational.
* Python `int(...)` truncation toward zero is modelled by `truncQ`.
* Python float division by zero raises `ZeroDivisionError`; functions that
  can hit it (`point_in_polygon`, and `circle_polygon_collision` through it)
  return `Option Bool`, with `none` standing for the raised exception.
* Distances: `math.hypot` is irrational in general, so the comparison
  `distance_point_to_segment(...) <= r` from the source is represented by
  the equivalent rational test `0 ≤ r ∧ distSq ≤ r^2` on squared distances.
* Randomness: `random.randint(a, b)` (inclusive on both ends) is modelled
  by `randint a b d` where `d : Nat` is an arbitrary raw draw; every value
  of `[a, b]` is attainable and no other value is.  Each obstacle owns its
  private draw stream (`Env.obs`), mirroring the per-obstacle
  `random.Random(...)` source in the constructor.
* `math.sin (π * t)` (used only for the cosmetic side-waviness of spikes)
  is abstracted as an arbitrary function `Env.sinPi : ℚ → ℚ`.
* Purely cosmetic pieces carrying no decision logic are omitted from the
  state: water/blood particle lists, per-obstacle tint colors, and the
  bat's per-frame wing angle (the only Bat field whose update needs `sin`;
  `_wing_phase` and `_flap_time_left` are rational and are kept).
* `bat.break_apart()` builds cosmetic falling parts from RNG draws and
  trigonometry; its return value is supplied as the oracle `Env.parts`
  wherever the source calls it.
-/

/-! ### Configuration constants (src/cave_bat/config.py) -/

def WINDOW_WIDTH : Int := 1280

def WINDOW_HEIGHT : Int := 720

def GRAVITY : ℚ := 1800

def FLAP_IMPULSE : ℚ := -600

def MAX_FALL_SPEED : ℚ := 1200

def SCROLL_SPEED : ℚ := 280

def OBSTACLE_SPACING : ℚ := 360

def OBSTACLE_WIDTH : Int := 120

def MIN_GAP : Int := 210

def MAX_GAP : Int := 290

def MARGIN_TOP_BOTTOM : Int := 96

/-- BAT_X = int(WINDOW_WIDTH * 0.28) = 358 (the float product 358.4000...
rounds and truncates to 358, as exact arithmetic also gives). -/
def BAT_X : Int := 358

def BAT_BODY_RADIUS : ℚ := 24

def WING_FLAP_DURATION : ℚ := 0.45

def FORWARD_THRUST : ℚ := 260

def FORWARD_DRAG : ℚ := 1.6

/-! ### Geometry kernel (src/cave_bat/utils.py) -/

/-- utils.clamp: max(lo, min(hi, value)). -/
def clamp (value lo hi : ℚ) : ℚ := max lo (min hi value)

/-- Python int() truncation toward zero on a rational. -/
def truncQ (q : ℚ) : Int :=
  if 0 ≤ q then Int.ediv q.num q.den else -(Int.ediv (-q).num (-q).den)

/-- random.randint a b (inclusive on both ends), applied to a raw draw d.
For a ≤ b the result ranges over exactly [a, b], every value attainable. -/
def randint (a b : Int) (d : Nat) : Int := a + ((d % (b + 1 - a).toNat : Nat) : Int)

/-- Squared version of utils.distance_point_to_segment: the projection
parameter t is clamped to [0,1] exactly as in the source, degenerate
zero-length segments fall back to the squared distance to the point A;
the final `math.hypot` is replaced by the squared distance. -/
def distSqPointToSegment (px py ax ay bx b_y : ℚ) : ℚ :=
  let abx := bx - ax
  let aby := b_y - ay
  let apx := px - ax
  let apy := py - ay
  let abLen2 := abx * abx + aby * aby
  if abLen2 = 0 then apx * apx + apy * apy
  else
    let t := max 0 (min 1 ((apx * abx + apy * aby) / abLen2))
    let cx := ax + t * abx
    let cy := ay + t * aby
    (px - cx) * (px - cx) + (py - cy) * (py - cy)

/-- The edge list traversed by the loops in utils.py:
pairs (poly[i], poly[(i+1) % n]) for i in range(n). -/
def polyEdges (poly : List (ℚ × ℚ)) : List ((ℚ × ℚ) × (ℚ × ℚ)) :=
  poly.zip (poly.rotate 1)

/-- One iteration of the utils.point_in_polygon loop: `inside` is the
running parity; `none` models the ZeroDivisionError raised when the
divisor y2 - y1 + 1e-9 is exactly zero. -/
def pipStep (px py : ℚ) (inside : Bool) (e : (ℚ × ℚ) × (ℚ × ℚ)) : Option Bool :=
  let x1 := e.1.1
  let y1 := e.1.2
  let x2 := e.2.1
  let y2 := e.2.2
  if (decide (y1 > py)) ≠ (decide (y2 > py)) then
    let d := y2 - y1 + 1 / 1000000000
    if d = 0 then none
    else
      let xAtY := x1 + (py - y1) * (x2 - x1) / d
      some (if xAtY > px then !inside else inside)
  else some inside

/-- utils.point_in_polygon: ray-casting parity test; `none` models the
ZeroDivisionError raised on a zero divisor. -/
def point_in_polygon (px py : ℚ) (poly : List (ℚ × ℚ)) : Option Bool :=
  (polyEdges poly).foldlM (pipStep px py) false

/-- utils.circle_polygon_collision: true if the center is inside the
polygon, or some edge segment is within distance r of the center
(`0 ≤ r ∧ distSq ≤ r^2` encodes `distance <= r`).  A `none` from the
inside test propagates, as the exception would in the source. -/
def circle_polygon_collision (cx cy r : ℚ) (poly : List (ℚ × ℚ)) : Option Bool :=
  match point_in_polygon cx cy poly with
  | none => none
  | some true => some true
  | some false =>
      some ((polyEdges poly).any fun e =>
        decide (0 ≤ r) &&
        decide (distSqPointToSegment cx cy e.1.1 e.1.2 e.2.1 e.2.2 ≤ r ^ 2))

/-! ### Bat (src/cave_bat/entities.py, class Bat)

The per-frame animation angle `_wing_angle_deg` is the only field whose
update needs `math.sin`; it feeds only the renderer and `break_apart`
(both cosmetic) and is omitted.  `_wing_phase` and `_flap_time_left` are
updated by rational arithmetic and are kept. -/

structure Bat where
  x : ℚ
  y : ℚ
  vy : ℚ
  alive : Bool
  wingPhase : ℚ
  flapTimeLeft : ℚ
deriving DecidableEq

/-- Bat.__init__(x, y). -/
def Bat.init (x y : ℚ) : Bat :=
  { x := x, y := y, vy := 0, alive := true, wingPhase := 0, flapTimeLeft := 0 }

/-- Bat.reset(x, y): reassigns every field exactly as __init__ does. -/
def Bat.reset (_ : Bat) (x y : ℚ) : Bat := Bat.init x y

/-- Bat.flap: no-op when not alive; otherwise vy := FLAP_IMPULSE and the
flap-burst timer is raised to at least WING_FLAP_DURATION. -/
def Bat.flap (b : Bat) : Bat :=
  if b.alive = false then b
  else { b with vy := FLAP_IMPULSE, flapTimeLeft := max b.flapTimeLeft WING_FLAP_DURATION }

/-- Bat.update(dt): no-op when not alive; otherwise clamp-integrated
gravity on vy, position integration, and the rational animation updates
(the trigonometric `_wing_angle_deg` computation is cosmetic, omitted). -/
def Bat.update (b : Bat) (dt : ℚ) : Bat :=
  if b.alive = false then b
  else
    let vy := clamp (b.vy + GRAVITY * dt) (-9999) MAX_FALL_SPEED
    let y := b.y + vy * dt
    let speedFactor := 1 + clamp (|vy| / 600) 0 0.8
    let wingPhase := b.wingPhase + dt * 2.4 * (0.7 + 0.3 * speedFactor)
    let flapTimeLeft := if b.flapTimeLeft > 0 then max 0 (b.flapTimeLeft - dt) else b.flapTimeLeft
    { b with vy := vy, y := y, wingPhase := wingPhase, flapTimeLeft := flapTimeLeft }

/-! ### BatPart (src/cave_bat/entities.py, class BatPart)

Only the physics fields are modelled; the shape/color render payload
(circle/ellipse/polygon tag, local points, colors) carries no decision
logic and is omitted. -/

structure BatPart where
  x : ℚ
  y : ℚ
  vx : ℚ
  vy : ℚ
  angle : ℚ
  angularVelocity : ℚ
  alive : Bool
deriving DecidableEq

/-- BatPart.update(dt, scroll_speed): alive check, cull bounds, then
drag/gravity integration and spin. -/
def BatPart.update (p : BatPart) (dt scroll : ℚ) : BatPart :=
  if p.alive = false then p
  else if p.x < -60 ∨ p.x > (WINDOW_WIDTH : ℚ) + 60 ∨ p.y > (WINDOW_HEIGHT : ℚ) + 30 then
    { p with alive := false }
  else
    let vx := p.vx * (1 - min 0.4 (2 * dt))
    let vy := p.vy + 2000 * dt
    { p with
      vx := vx,
      vy := vy,
      x := p.x + (vx - scroll) * dt,
      y := p.y + vy * dt,
      angle := p.angle + p.angularVelocity * dt }

/-! ### Obstacle (src/cave_bat/entities.py, class Obstacle)

The per-obstacle tint colors (`col_base`, `col_shade`) are render-only
and omitted.  The constructor's private RNG is modelled by the obstacle's
own draw stream `rng : Nat → Nat`; the draws are consumed in source
order: stalactite tip_x, tip_y, base_width, 6 bulges, then the same for
the stalagmite. -/

structure Obstacle where
  x : ℚ
  gap_y : Int
  gap_h : Int
  passed : Bool
  topSpikes : List (List (Int × Int))
  bottomSpikes : List (List (Int × Int))
deriving DecidableEq

/-- The tip-x draw of Obstacle._build_spikes:
`rng.randint(16, OBSTACLE_WIDTH - 16)` on a raw draw. -/
def tipXDraw (d : Nat) : Int := randint 16 (OBSTACLE_WIDTH - 16) d

/-- One sample point (left-side, right-side) of Obstacle._organic_spike at
parameter i of 5: linear interpolation base→tip with the sin-scaled bulge,
each coordinate truncated by int(). -/
def spikePoint (sinPi : ℚ → ℚ) (bulgeDraw : Nat → Nat)
    (tip_x tip_y base_y lbx rbx : Int) (i : Nat) : (Int × Int) × (Int × Int) :=
  let t : ℚ := (i : ℚ) / 5
  let y := truncQ ((1 - t) * (base_y : ℚ) + t * (tip_y : ℚ))
  let bulge := truncQ (sinPi t * ((randint 2 6 (bulgeDraw i) : Int) : ℚ))
  let lx := truncQ ((1 - t) * (lbx : ℚ) + t * ((tip_x : ℚ) - 1)) - bulge
  let rx := truncQ ((1 - t) * (rbx : ℚ) + t * ((tip_x : ℚ) + 1)) + bulge
  ((lx, y), (rx, y))

/-- Obstacle._organic_spike: tapered polygon with wavy sides, assembled as
left path (base→tip) then reversed right path (tip→just-above-base) then
the right base point.  The source's `downward` flag selects between two
textually identical branches and is dropped. -/
def organicSpike (sinPi : ℚ → ℚ) (bulgeDraw : Nat → Nat)
    (tip_x tip_y base_y base_width : Int) : List (Int × Int) :=
  let half := base_width / 2
  let lbx := max 0 (tip_x - half)
  let rbx := min OBSTACLE_WIDTH (tip_x + half)
  let pts := (List.range 6).map (spikePoint sinPi bulgeDraw tip_x tip_y base_y lbx rbx)
  let leftPath := pts.map Prod.fst
  let rightPath := pts.map Prod.snd
  leftPath ++ (rightPath.drop 1).reverse ++ rightPath.take 1

/-- Obstacle.__init__ plus Obstacle._build_spikes: one stalactite hanging
from y = 0 and one stalagmite anchored at y = WINDOW_HEIGHT.
int(OBSTACLE_WIDTH * 0.6) = 72 and int(OBSTACLE_WIDTH * 0.9) = 108 as in
the source's floats. -/
def Obstacle.make (x : ℚ) (gap_y gap_h : Int) (rng : Nat → Nat) (sinPi : ℚ → ℚ) : Obstacle :=
  let tipX1 := tipXDraw (rng 0)
  let tipY1 := gap_y + randint 8 52 (rng 1)
  let bw1 := randint 72 108 (rng 2)
  let top := organicSpike sinPi (fun i => rng (3 + i)) tipX1 tipY1 0 bw1
  let bottomTop := gap_y + gap_h
  let tipX2 := tipXDraw (rng 9)
  let tipY2 := bottomTop - randint 8 52 (rng 10)
  let bw2 := randint 72 108 (rng 11)
  let bottom := organicSpike sinPi (fun i => rng (12 + i)) tipX2 tipY2 WINDOW_HEIGHT bw2
  { x := x, gap_y := gap_y, gap_h := gap_h, passed := false,
    topSpikes := [top], bottomSpikes := [bottom] }

/-- Obstacle.update(dt, scroll_speed): x decreases by speed * dt (the
game always passes scroll_speed = forward_speed; the SCROLL_SPEED default
of the source is never taken there). -/
def Obstacle.update (o : Obstacle) (dt speed : ℚ) : Obstacle :=
  { o with x := o.x - speed * dt }

/-- Obstacle.offscreen: x + OBSTACLE_WIDTH < -20. -/
def Obstacle.offscreen (o : Obstacle) : Bool :=
  decide (o.x + (OBSTACLE_WIDTH : ℚ) < -20)

/-- Obstacle.world_polys: every spike polygon offset by ox = int(self.x). -/
def Obstacle.worldPolys (o : Obstacle) : List (List (Int × Int)) :=
  let ox := truncQ o.x
  (o.topSpikes ++ o.bottomSpikes).map fun poly => poly.map fun p => (ox + p.1, p.2)

/-! ### Game (src/cave_bat/game.py, class Game)

State fields in source order; the water-drop and blood-drop particle
lists are purely cosmetic and omitted (their updates touch no other
field).  The rendering surfaces, fonts, clock and parallax data of the
source constructor carry no game state and are omitted. -/

structure Game where
  bat : Bat
  obstacles : List Obstacle
  spawnTimer : ℚ
  score : Nat
  best : Nat
  game_over : Bool
  timeAccum : ℚ
  forward_speed : ℚ
  scroll_offset : ℚ
  batParts : List BatPart
deriving DecidableEq

/-- Oracle for every effect the game code draws from outside the modelled
state: `g` is the global `random` module's randint stream (indexed by call
order inside one method call), `obs k` is the private draw stream handed
to the k-th obstacle constructed during that call, `sinPi t` stands for
`math.sin (math.pi * t)`, and `parts` is the value `bat.break_apart()`
would return (cosmetic falling parts from RNG and trigonometry). -/
structure Env where
  g : Nat → Nat
  obs : Nat → Nat → Nat
  sinPi : ℚ → ℚ
  parts : List BatPart

/-- Game.trigger_game_over: guarded by game_over; sets the flag, kills
the bat, raises best to max(best, score) and replaces the parts list with
the break_apart result (supplied as `parts`). -/
def Game.trigger_game_over (g : Game) (parts : List BatPart) : Game :=
  if g.game_over then g
  else
    { g with
      game_over := true,
      bat := { g.bat with alive := false },
      best := max g.best g.score,
      batParts := parts }

/-- Game.perform_flap: bat.flap() then forward_speed += FORWARD_THRUST
(unconditionally — no alive or game_over guard on the thrust). -/
def Game.perform_flap (g : Game) : Game :=
  { g with bat := g.bat.flap, forward_speed := g.forward_speed + FORWARD_THRUST }

/-- Game.reset: fresh bat at (BAT_X, WINDOW_HEIGHT // 2), six pre-warmed
obstacles starting at WINDOW_WIDTH + 200 spaced by OBSTACLE_SPACING,
score = 0, best = 0 (the source reassigns best here too), flags and
accumulators zeroed, particle and part lists cleared. -/
def Game.reset (_ : Game) (env : Env) : Game :=
  let prewarm := (List.range 6).map fun j =>
    let gh := randint MIN_GAP MAX_GAP (env.g (2 * j))
    let gy := randint MARGIN_TOP_BOTTOM (WINDOW_HEIGHT - MARGIN_TOP_BOTTOM - gh) (env.g (2 * j + 1))
    Obstacle.make (((WINDOW_WIDTH : ℚ) + 200) + OBSTACLE_SPACING * j) gy gh (env.obs j) env.sinPi
  { bat := Bat.init (BAT_X : ℚ) ((WINDOW_HEIGHT / 2 : Int) : ℚ),
    obstacles := prewarm,
    spawnTimer := 0,
    score := 0,
    best := 0,
    game_over := false,
    timeAccum := 0,
    forward_speed := SCROLL_SPEED * 0,
    scroll_offset := 0,
    batParts := [] }

/-- Game.spawn_obstacle: random gap, x = WINDOW_WIDTH + 80. -/
def spawnObstacle (env : Env) : Obstacle :=
  let gh := randint MIN_GAP MAX_GAP (env.g 0)
  let gy := randint MARGIN_TOP_BOTTOM (WINDOW_HEIGHT - MARGIN_TOP_BOTTOM - gh) (env.g 1)
  Obstacle.make ((WINDOW_WIDTH : ℚ) + 80) gy gh (env.obs 0) env.sinPi

/-- The forward_speed value after the drag-and-clamp lines of
Game.update: fs -= fs * FORWARD_DRAG * dt, then clamped to
[0, FORWARD_THRUST + SCROLL_SPEED]. -/
def Game.newForwardSpeed (g : Game) (dt : ℚ) : ℚ :=
  clamp (g.forward_speed - g.forward_speed * FORWARD_DRAG * dt) 0 (FORWARD_THRUST + SCROLL_SPEED)

/-- The spawn block of Game.update: append one new obstacle when the list
is empty or the last obstacle has moved left of WINDOW_WIDTH - spacing. -/
def spawnPhase (obs : List Obstacle) (fs : ℚ) (env : Env) : List Obstacle :=
  let spacing := max (OBSTACLE_SPACING * 0.8)
    (OBSTACLE_SPACING * min 1.5 ((fs + 1) / (SCROLL_SPEED + 1)))
  match obs.getLast? with
  | none => obs ++ [spawnObstacle env]
  | some o => if o.x < (WINDOW_WIDTH : ℚ) - spacing then obs ++ [spawnObstacle env] else obs

/-- The obstacle list Game.update iterates over for scoring: the active
list after the spawn block. -/
def Game.spawnedObstacles (g : Game) (dt : ℚ) (env : Env) : List Obstacle :=
  spawnPhase g.obstacles (g.newForwardSpeed dt) env

/-- One iteration of the scoring loop in Game.update: the obstacle is
advanced by obs.update(dt, scroll_speed=fs), then if it is unpassed and
its right edge x + OBSTACLE_WIDTH is strictly left of the bat's x it is
marked passed and contributes 1 to the score, else 0.  (The occasional
water-drop spawn in the same loop is cosmetic and omitted.) -/
def scoreStep (batX fs dt : ℚ) (o : Obstacle) : Obstacle × Nat :=
  let o1 := o.update dt fs
  if o1.passed = false ∧ o1.x + (OBSTACLE_WIDTH : ℚ) < batX
  then ({ o1 with passed := true }, 1) else (o1, 0)

/-- Circle-vs-polygon collision as the game invokes it on the generated
integer-coordinate polygons.  On such polygons the inside test never hits
a zero divisor (an integer y-span cannot equal 1e-9), so the `none` case
of the Option never occurs and the default is never taken; this is proved
in `collideIntPoly_defined` below. -/
def collideIntPoly (cx cy r : ℚ) (poly : List (Int × Int)) : Bool :=
  (circle_polygon_collision cx cy r (poly.map fun p => ((p.1 : ℚ), (p.2 : ℚ)))).getD false

/-- The obstacle-collision scan of Game.update: obstacles whose center is
within 200 px of the bat's x are tested polygon by polygon.  The source
breaks at the first hit and spawns cosmetic blood drops; since
trigger_game_over is guarded, that is equivalent to asking whether any
obstacle collides. -/
def obstacleHit (bat : Bat) (obs : List Obstacle) : Bool :=
  obs.any fun o =>
    decide (|o.x + (OBSTACLE_WIDTH : ℚ) / 2 - bat.x| ≤ 200) &&
    o.worldPolys.any fun poly => collideIntPoly bat.x bat.y BAT_BODY_RADIUS poly

/-- The bat-part phase at the end of Game.update: parts outside the cull
bounds are dropped, the rest get BatPart.update applied and are kept while
alive.  (The blood-trail spawn per part is cosmetic and omitted.) -/
def batPartsPhase (dt scroll : ℚ) (ps : List BatPart) : List BatPart :=
  ps.filterMap fun p =>
    if p.x < -60 ∨ p.x > (WINDOW_WIDTH : ℚ) + 60 ∨ p.y > (WINDOW_HEIGHT : ℚ) + 30 then none
    else
      let p1 := p.update dt scroll
      if p1.alive then some p1 else none

/-- The not-game-over body of Game.update, in source order: bat physics,
forward-speed drag and clamp, scroll integration, spawn block, scoring
loop, offscreen cull, bounds collision, obstacle collision scan, then the
bat-part phase (water/blood particle phases are cosmetic and omitted). -/
def Game.updateCore (g : Game) (dt : ℚ) (env : Env) : Game :=
  let bat1 := g.bat.update dt
  let fs := g.newForwardSpeed dt
  let stepped := (g.spawnedObstacles dt env).map (scoreStep bat1.x fs dt)
  let obs2 := (stepped.map Prod.fst).filter fun o => !o.offscreen
  let g1 : Game :=
    { g with
      bat := bat1,
      timeAccum := g.timeAccum + dt,
      forward_speed := fs,
      scroll_offset := g.scroll_offset + fs * dt,
      obstacles := obs2,
      score := g.score + (stepped.map Prod.snd).sum }
  let g2 := if bat1.y - BAT_BODY_RADIUS ≤ 0 ∨ (WINDOW_HEIGHT : ℚ) ≤ bat1.y + BAT_BODY_RADIUS
            then g1.trigger_game_over env.parts else g1
  let g3 := if obstacleHit bat1 g2.obstacles then g2.trigger_game_over env.parts else g2
  { g3 with batParts := batPartsPhase dt g3.forward_speed g3.batParts }

/-- Game.update(dt): the time accumulator always advances; physics,
scoring and collisions run only while not game_over; the particle/part
phases run in either case. -/
def Game.update (g : Game) (dt : ℚ) (env : Env) : Game :=
  if g.game_over then
    { g with
      timeAccum := g.timeAccum + dt,
      batParts := batPartsPhase dt g.forward_speed g.batParts }
  else g.updateCore dt env

/-! ### Concrete fixtures used by witnesses and counterexamples -/

/-- The test square of src/tests/test_utils.py. -/
def squarePoly : List (ℚ × ℚ) := [(0, 0), (10, 0), (10, 10), (0, 10)]

/-- A polygon whose first edge spans exactly 1e-9 in y across the query
height 0: on it the divisor y2 - y1 + 1e-9 of point_in_polygon is exactly
zero (in Python: 0 - 1e-9 + 1e-9 == 0.0, raising ZeroDivisionError). -/
def epsilonPoly : List (ℚ × ℚ) := [(0, 1 / 1000000000), (10, 0), (5, 5)]

/-- A polygon whose first edge has y-span exactly 1e-9 but lies entirely
above the query height 0, so it never crosses it: point_in_polygon never
evaluates its division there and stays total. -/
def epsSpanPoly : List (ℚ × ℚ) := [(0, 2 + 1 / 1000000000), (10, 2), (5, 5)]

/-- A trivial oracle environment for concrete runs. -/
def env0 : Env := { g := fun _ => 0, obs := fun _ _ => 0, sinPi := fun _ => 0, parts := [] }

/-- A concrete cosmetic part. -/
def partW : BatPart :=
  { x := 1, y := 2, vx := 3, vy := 4, angle := 0, angularVelocity := 0, alive := true }

/-- A concrete obstacle just left of the bat so that its right edge has
passed the bat's x. -/
def obW : Obstacle := Obstacle.make 200 300 250 (fun _ => 0) (fun _ => 0)

/-- A live bat at the spawn position. -/
def batW : Bat := Bat.init (BAT_X : ℚ) 360

/-- A dead bat with nonzero vy. -/
def deadBatW : Bat :=
  { x := 100, y := 100, vy := 7, alive := false, wingPhase := 0, flapTimeLeft := 0 }

/-- A concrete running (not game-over) session. -/
def gW : Game :=
  { bat := batW, obstacles := [obW], spawnTimer := 0, score := 0, best := 0,
    game_over := false, timeAccum := 0, forward_speed := 0, scroll_offset := 0,
    batParts := [] }

/-- The same session with forward_speed = 100. -/
def gV : Game := { gW with forward_speed := 100 }

/-- A game-over session with a dead bat and nonzero forward speed. -/
def gDeadW : Game :=
  { gW with bat := deadBatW, game_over := true, score := 2, best := 4, forward_speed := 50 }

/-- A session carrying best = 5. -/
def gBest5 : Game := { gW with best := 5, game_over := true }

/-! ### Helper lemmas -/

/-- Bat.update never changes the horizontal position. -/
theorem Bat.update_x (b : Bat) (dt : ℚ) : (b.update dt).x = b.x := by
  unfold Bat.update
  split <;> rfl

/-- trigger_game_over never changes the score. -/
theorem trigger_game_over_score (g : Game) (p : List BatPart) :
    (g.trigger_game_over p).score = g.score := by
  unfold Game.trigger_game_over
  split <;> rfl

/-- trigger_game_over never changes the forward speed. -/
theorem trigger_game_over_forward_speed (g : Game) (p : List BatPart) :
    (g.trigger_game_over p).forward_speed = g.forward_speed := by
  unfold Game.trigger_game_over
  split <;> rfl

/-- The score after the not-game-over body: every obstacle of the
post-spawn list contributes its scoreStep increment. -/
theorem updateCore_score (g : Game) (dt : ℚ) (env : Env) :
    (g.updateCore dt env).score =
      g.score +
        (((g.spawnedObstacles dt env).map
          (scoreStep (g.bat.update dt).x (g.newForwardSpeed dt) dt)).map Prod.snd).sum := by
  unfold Game.updateCore
  simp only [apply_ite Game.score, trigger_game_over_score, ite_self]

/-- The forward speed after the not-game-over body is exactly the
drag-and-clamp value. -/
theorem updateCore_forward_speed (g : Game) (dt : ℚ) (env : Env) :
    (g.updateCore dt env).forward_speed = g.newForwardSpeed dt := by
  unfold Game.updateCore
  simp only [apply_ite Game.forward_speed, trigger_game_over_forward_speed, ite_self]

/-! ### Claim theorems -/

/-- Claim C6: for every Bat state, if the bat is alive then flap() sets vy
to exactly FLAP_IMPULSE regardless of the prior vy (hard override), and
leaves x and y unchanged; if the bat is dead, flap() changes nothing at
all (in particular vy, x and y are unchanged). -/
theorem c6_flap_hard_override (b : Bat) :
    (b.alive = true →
      (b.flap).vy = FLAP_IMPULSE ∧ (b.flap).x = b.x ∧ (b.flap).y = b.y) ∧
    (b.alive = false → b.flap = b) := by
  constructor
  · intro h
    simp [Bat.flap, h]
  · intro h
    simp [Bat.flap, h]

/-- Witness for C6 at a concrete alive bat and a concrete dead bat. -/
theorem c6_flap_hard_override_witness :
    (batW.alive = true ∧
      (batW.flap).vy = FLAP_IMPULSE ∧ (batW.flap).x = batW.x ∧ (batW.flap).y = batW.y) ∧
    (deadBatW.alive = false ∧ deadBatW.flap = deadBatW) :=
  ⟨⟨rfl, (c6_flap_hard_override batW).1 rfl⟩, ⟨rfl, (c6_flap_hard_override deadBatW).2 rfl⟩⟩

/-- Claim C8: after update(dt) on an alive bat with dt ≥ 0 the invariant
vy ≤ MAX_FALL_SPEED holds (unconditionally in the prior vy), and the
other operations — flap, reset, update on a dead bat — preserve the
invariant. -/
theorem c8_fall_speed_cap (b : Bat) (dt x y : ℚ) :
    (b.alive = true → 0 ≤ dt → (b.update dt).vy ≤ MAX_FALL_SPEED) ∧
    (b.vy ≤ MAX_FALL_SPEED → (b.flap).vy ≤ MAX_FALL_SPEED) ∧
    (b.reset x y).vy ≤ MAX_FALL_SPEED ∧
    (b.alive = false → b.vy ≤ MAX_FALL_SPEED → (b.update dt).vy ≤ MAX_FALL_SPEED) := by
  refine ⟨?_, ?_, ?_, ?_⟩
  · intro h _
    have hv : (b.update dt).vy = clamp (b.vy + GRAVITY * dt) (-9999) MAX_FALL_SPEED := by
      simp [Bat.update, h]
    rw [hv]
    unfold clamp
    exact max_le (by norm_num [MAX_FALL_SPEED]) (min_le_left _ _)
  · intro hvy
    cases hb : b.alive with
    | false => simpa [Bat.flap, hb] using hvy
    | true =>
      simp only [Bat.flap, hb]
      norm_num [FLAP_IMPULSE, MAX_FALL_SPEED]
  · simp [Bat.reset, Bat.init]
    norm_num [MAX_FALL_SPEED]
  · intro h hvy
    simpa [Bat.update, h] using hvy

/-- Witness for C8: the cap holds after an update of a live falling bat,
flap preserves it on a dead bat, reset restores it, and updating a dead
bat keeps it. -/
theorem c8_fall_speed_cap_witness :
    (batW.alive = true ∧ 0 ≤ (1 : ℚ) ∧ (batW.update 1).vy ≤ MAX_FALL_SPEED) ∧
    (deadBatW.vy ≤ MAX_FALL_SPEED ∧ (deadBatW.flap).vy ≤ MAX_FALL_SPEED) ∧
    (batW.reset 0 0).vy ≤ MAX_FALL_SPEED ∧
    (deadBatW.alive = false ∧ (deadBatW.update 1).vy ≤ MAX_FALL_SPEED) :=
  ⟨⟨rfl, by norm_num, (c8_fall_speed_cap batW 1 0 0).1 rfl (by norm_num)⟩,
   ⟨by norm_num [deadBatW, MAX_FALL_SPEED],
    (c8_fall_speed_cap deadBatW 1 0 0).2.1 (by norm_num [deadBatW, MAX_FALL_SPEED])⟩,
   (c8_fall_speed_cap batW 1 0 0).2.2.1,
   ⟨rfl, (c8_fall_speed_cap deadBatW 1 0 0).2.2.2 rfl
      (by norm_num [deadBatW, MAX_FALL_SPEED])⟩⟩

/-- Claim C10: Game.perform_flap adds FORWARD_THRUST to forward_speed
unconditionally — for every session state, including dead-bat or
game-over states (where Bat.flap is a no-op, so the bat is unchanged). -/
theorem c10_perform_flap_thrust_unconditional (g : Game) :
    (g.perform_flap).forward_speed = g.forward_speed + FORWARD_THRUST ∧
    (g.bat.alive = false → (g.perform_flap).bat = g.bat) ∧
    (g.perform_flap).game_over = g.game_over := by
  refine ⟨rfl, ?_, rfl⟩
  intro h
  simp [Game.perform_flap, Bat.flap, h]

/-- Witness for C10 at a game-over session with a dead bat. -/
theorem c10_perform_flap_thrust_unconditional_witness :
    gDeadW.bat.alive = false ∧ gDeadW.game_over = true ∧
    (gDeadW.perform_flap).forward_speed = gDeadW.forward_speed + FORWARD_THRUST ∧
    (gDeadW.perform_flap).bat = gDeadW.bat :=
  ⟨rfl, rfl, (c10_perform_flap_thrust_unconditional gDeadW).1,
   (c10_perform_flap_thrust_unconditional gDeadW).2.1 rfl⟩

/-- Claim C4: on a non-game-over session, trigger_game_over sets
game_over, kills the bat, raises best to max(best, score) and installs
the cosmetic parts list; a second trigger_game_over on the result changes
nothing at all (best is not updated twice, the parts list is not replaced
again). -/
theorem c4_trigger_game_over_idempotent (g : Game) (parts parts2 : List BatPart)
    (h : g.game_over = false) :
    (g.trigger_game_over parts).game_over = true ∧
    (g.trigger_game_over parts).bat.alive = false ∧
    (g.trigger_game_over parts).best = max g.best g.score ∧
    (g.trigger_game_over parts).batParts = parts ∧
    (g.trigger_game_over parts).trigger_game_over parts2 = g.trigger_game_over parts := by
  simp [Game.trigger_game_over, h]

/-- Witness for C4 at a concrete running session: the second trigger with
a different parts argument changes nothing. -/
theorem c4_trigger_game_over_idempotent_witness :
    gW.game_over = false ∧
    ((gW.trigger_game_over [partW]).game_over = true ∧
      (gW.trigger_game_over [partW]).bat.alive = false ∧
      (gW.trigger_game_over [partW]).best = max gW.best gW.score ∧
      (gW.trigger_game_over [partW]).batParts = [partW] ∧
      (gW.trigger_game_over [partW]).trigger_game_over [] = gW.trigger_game_over [partW]) :=
  ⟨rfl, c4_trigger_game_over_idempotent gW [partW] [] rfl⟩

/-- Claim C1 (code bug): Game.reset always reassigns best = 0
(game.py line 150), so a session holding best = 5 loses it on reset —
the spec's high-water mark across resets does not survive reset. -/
theorem c1_reset_clears_best : gBest5.best = 5 ∧ (gBest5.reset env0).best = 0 :=
  ⟨rfl, rfl⟩

/-- Claim C2 (amended): every tip-x the generator can draw lies in the
closed interval [16, OBSTACLE_WIDTH - 16]; both the stalactite and the
stalagmite tip of Obstacle.make are drawn through tipXDraw. -/
theorem c2_tip_x_in_closed_interval (d : Nat) :
    16 ≤ tipXDraw d ∧ tipXDraw d ≤ OBSTACLE_WIDTH - 16 := by
  have h89 : ((120 : Int) - 16 + 1 - 16).toNat = 89 := rfl
  simp only [tipXDraw, randint, OBSTACLE_WIDTH, h89]
  omega

/-- Counterexample for C2 as frozen: the draw 0 yields tip x exactly 16
(random.randint is inclusive), which is not strictly greater than 16. -/
theorem c2_tip_x_attains_16 : tipXDraw 0 = 16 ∧ ¬(16 < tipXDraw 0) := by
  constructor <;> simp [tipXDraw, randint, OBSTACLE_WIDTH]

/-- The spawn block only ever appends, so active obstacles stay in the
scored list. -/
theorem mem_spawnPhase (o : Obstacle) (obs : List Obstacle) (fs : ℚ) (env : Env)
    (h : o ∈ obs) : o ∈ spawnPhase obs fs env := by
  unfold spawnPhase
  cases hl : obs.getLast? with
  | none => exact List.mem_append_left _ h
  | some last =>
    dsimp only
    split
    · exact List.mem_append_left _ h
    · exact h

/-- Claim C3: in a non-game-over session, an active obstacle that is
unpassed and whose right edge x + OBSTACLE_WIDTH ends the frame strictly
left of the bat's x is marked passed and contributes exactly 1 to the
score of this Game.update call; the total score gain of the call is the
sum of the per-obstacle 0/1 contributions; and any already-passed
obstacle contributes 0 and stays passed, so no later update can count it
again. -/
theorem c3_scoring_exactly_once (g : Game) (dt : ℚ) (env : Env) (o : Obstacle)
    (hgo : g.game_over = false) (hmem : o ∈ g.obstacles) (hp : o.passed = false)
    (hpass : o.x - g.newForwardSpeed dt * dt + (OBSTACLE_WIDTH : ℚ) < g.bat.x) :
    (scoreStep g.bat.x (g.newForwardSpeed dt) dt o).1.passed = true ∧
    (scoreStep g.bat.x (g.newForwardSpeed dt) dt o).2 = 1 ∧
    o ∈ g.spawnedObstacles dt env ∧
    (g.update dt env).score =
      g.score +
        (((g.spawnedObstacles dt env).map
          (scoreStep g.bat.x (g.newForwardSpeed dt) dt)).map Prod.snd).sum ∧
    (∀ o2 : Obstacle, o2.passed = true →
      (scoreStep g.bat.x (g.newForwardSpeed dt) dt o2).2 = 0 ∧
      (scoreStep g.bat.x (g.newForwardSpeed dt) dt o2).1.passed = true) := by
  refine ⟨?_, ?_, ?_, ?_, ?_⟩
  · simp [scoreStep, Obstacle.update, hp, hpass]
  · simp [scoreStep, Obstacle.update, hp, hpass]
  · exact mem_spawnPhase o g.obstacles (g.newForwardSpeed dt) env hmem
  · have h1 : (g.update dt env).score = (g.updateCore dt env).score := by
      simp [Game.update, hgo]
    rw [h1, updateCore_score, Bat.update_x]
  · intro o2 h2
    constructor <;> simp [scoreStep, Obstacle.update, h2]

/-- Claim C7: with drag * dt ≤ 1, nonnegative dt and nonnegative speed V,
one Game.update with no flap sets forward_speed to the clamp of
V * (1 - FORWARD_DRAG * dt) into [0, FORWARD_THRUST + SCROLL_SPEED]; the
result is never negative, and equals V * (1 - FORWARD_DRAG * dt) exactly
whenever that value does not exceed the upper clamp bound. -/
theorem c7_forward_speed_drag (g : Game) (dt : ℚ) (env : Env)
    (hgo : g.game_over = false) (hV : 0 ≤ g.forward_speed) (hdt : 0 ≤ dt)
    (hdrag : FORWARD_DRAG * dt ≤ 1) :
    (g.update dt env).forward_speed =
      clamp (g.forward_speed * (1 - FORWARD_DRAG * dt)) 0 (FORWARD_THRUST + SCROLL_SPEED) ∧
    0 ≤ (g.update dt env).forward_speed ∧
    (g.forward_speed * (1 - FORWARD_DRAG * dt) ≤ FORWARD_THRUST + SCROLL_SPEED →
      (g.update dt env).forward_speed = g.forward_speed * (1 - FORWARD_DRAG * dt)) := by
  have h1 : (g.update dt env).forward_speed = g.newForwardSpeed dt := by
    simp [Game.update, hgo, updateCore_forward_speed]
  have h2 : g.newForwardSpeed dt =
      clamp (g.forward_speed * (1 - FORWARD_DRAG * dt)) 0 (FORWARD_THRUST + SCROLL_SPEED) := by
    unfold Game.newForwardSpeed
    ring_nf
  have h0 : 0 ≤ g.forward_speed * (1 - FORWARD_DRAG * dt) :=
    mul_nonneg hV (by linarith)
  refine ⟨h1.trans h2, ?_, ?_⟩
  · rw [h1, h2]
    exact le_max_left 0 _
  · intro hcap
    rw [h1, h2]
    unfold clamp
    rw [min_eq_right hcap, max_eq_right h0]

/-- Witness for C3: a concrete session whose single obstacle has just
been overtaken by the bat. -/
theorem c3_scoring_exactly_once_witness :
    (gW.game_over = false ∧ obW ∈ gW.obstacles ∧ obW.passed = false ∧
      obW.x - gW.newForwardSpeed (1 / 60) * (1 / 60) + (OBSTACLE_WIDTH : ℚ) < gW.bat.x) ∧
    ((scoreStep gW.bat.x (gW.newForwardSpeed (1 / 60)) (1 / 60) obW).1.passed = true ∧
      (scoreStep gW.bat.x (gW.newForwardSpeed (1 / 60)) (1 / 60) obW).2 = 1 ∧
      obW ∈ gW.spawnedObstacles (1 / 60) env0 ∧
      (gW.update (1 / 60) env0).score =
        gW.score +
          (((gW.spawnedObstacles (1 / 60) env0).map
            (scoreStep gW.bat.x (gW.newForwardSpeed (1 / 60)) (1 / 60))).map Prod.snd).sum ∧
      (∀ o2 : Obstacle, o2.passed = true →
        (scoreStep gW.bat.x (gW.newForwardSpeed (1 / 60)) (1 / 60) o2).2 = 0 ∧
        (scoreStep gW.bat.x (gW.newForwardSpeed (1 / 60)) (1 / 60) o2).1.passed = true)) :=
  ⟨⟨rfl, by simp [gW], rfl,
    by norm_num [gW, obW, batW, Bat.init, Obstacle.make, Game.newForwardSpeed, clamp,
      FORWARD_DRAG, FORWARD_THRUST, SCROLL_SPEED, OBSTACLE_WIDTH, BAT_X]⟩,
   c3_scoring_exactly_once gW (1 / 60) env0 obW rfl (by simp [gW]) rfl
    (by norm_num [gW, obW, batW, Bat.init, Obstacle.make, Game.newForwardSpeed, clamp,
      FORWARD_DRAG, FORWARD_THRUST, SCROLL_SPEED, OBSTACLE_WIDTH, BAT_X])⟩

/-- Witness for C7: the session gV with forward_speed 100 and a 60 Hz
frame. -/
theorem c7_forward_speed_drag_witness :
    (gV.game_over = false ∧ 0 ≤ gV.forward_speed ∧ 0 ≤ (1 / 60 : ℚ) ∧
      FORWARD_DRAG * (1 / 60) ≤ 1) ∧
    ((gV.update (1 / 60) env0).forward_speed =
      clamp (gV.forward_speed * (1 - FORWARD_DRAG * (1 / 60))) 0
        (FORWARD_THRUST + SCROLL_SPEED) ∧
      0 ≤ (gV.update (1 / 60) env0).forward_speed ∧
      (gV.forward_speed * (1 - FORWARD_DRAG * (1 / 60)) ≤ FORWARD_THRUST + SCROLL_SPEED →
        (gV.update (1 / 60) env0).forward_speed =
          gV.forward_speed * (1 - FORWARD_DRAG * (1 / 60)))) :=
  ⟨⟨rfl, by norm_num [gV, gW], by norm_num, by norm_num [FORWARD_DRAG]⟩,
   c7_forward_speed_drag gV (1 / 60) env0 rfl (by norm_num [gV, gW]) (by norm_num)
    (by norm_num [FORWARD_DRAG])⟩

/-- One pipStep evaluation is defined whenever the edge's y-span is not
exactly the epsilon 1e-9 OR the edge does not cross the query height
(the division is only ever evaluated under the crossing guard
`decide (y1 > py) ≠ decide (y2 > py)`). -/
theorem pipStep_isSome (px py : ℚ) (acc : Bool) (e : (ℚ × ℚ) × (ℚ × ℚ))
    (h : decide (e.1.2 > py) ≠ decide (e.2.2 > py) → e.1.2 - e.2.2 ≠ 1 / 1000000000) :
    ∃ b, pipStep px py acc e = some b := by
  unfold pipStep
  dsimp only
  split
  · rename_i hg
    split
    · rename_i hz
      exact absurd (by linarith) (h hg)
    · exact ⟨_, rfl⟩
  · exact ⟨_, rfl⟩

/-- The parity fold of point_in_polygon is defined as long as no
traversed edge that crosses the query height has y-span exactly 1e-9. -/
theorem pip_foldlM_isSome (px py : ℚ) (es : List ((ℚ × ℚ) × (ℚ × ℚ))) (acc : Bool)
    (h : ∀ e ∈ es,
      decide (e.1.2 > py) ≠ decide (e.2.2 > py) → e.1.2 - e.2.2 ≠ 1 / 1000000000) :
    (es.foldlM (pipStep px py) acc).isSome = true := by
  induction es generalizing acc with
  | nil => rfl
  | cons e es ih =>
    obtain ⟨b, hb⟩ := pipStep_isSome px py acc e (h e (List.mem_cons_self e es))
    rw [List.foldlM_cons, hb]
    exact ih b fun e2 h2 => h e2 (List.mem_cons_of_mem e h2)

/-- Claim C9 (amended): point_in_polygon evaluates every division with a
nonzero divisor and returns a boolean, provided no polygon edge that
crosses the query's y (one endpoint strictly above it, the other not —
exactly the source's guard, the only situation in which the division is
evaluated) has y-span y1 - y2 exactly equal to 1e-9; edges that do not
cross, in particular all exactly-horizontal edges (y1 = y2), are
unconstrained and never cause a division by zero. -/
theorem c9_point_in_polygon_total (px py : ℚ) (poly : List (ℚ × ℚ))
    (h : ∀ e ∈ polyEdges poly,
      decide (e.1.2 > py) ≠ decide (e.2.2 > py) → e.1.2 - e.2.2 ≠ 1 / 1000000000) :
    (point_in_polygon px py poly).isSome = true :=
  pip_foldlM_isSome px py (polyEdges poly) false h

/-- Witness for C9 at query height 0, on two polygons: epsSpanPoly, whose
first edge has y-span exactly 1e-9 yet does not cross the query height
(so the proviso holds vacuously there), and the test square, whose bottom
edge is exactly horizontal at the query height. -/
theorem c9_point_in_polygon_total_witness :
    ((∀ e ∈ polyEdges epsSpanPoly,
        decide (e.1.2 > (0 : ℚ)) ≠ decide (e.2.2 > (0 : ℚ)) →
          e.1.2 - e.2.2 ≠ 1 / 1000000000) ∧
      (point_in_polygon 5 0 epsSpanPoly).isSome = true) ∧
    ((∀ e ∈ polyEdges squarePoly,
        decide (e.1.2 > (0 : ℚ)) ≠ decide (e.2.2 > (0 : ℚ)) →
          e.1.2 - e.2.2 ≠ 1 / 1000000000) ∧
      (point_in_polygon 5 0 squarePoly).isSome = true) :=
  ⟨⟨by norm_num [polyEdges, epsSpanPoly, List.rotate],
    c9_point_in_polygon_total 5 0 epsSpanPoly
      (by norm_num [polyEdges, epsSpanPoly, List.rotate])⟩,
   ⟨by norm_num [polyEdges, squarePoly, List.rotate],
    c9_point_in_polygon_total 5 0 squarePoly
      (by norm_num [polyEdges, squarePoly, List.rotate])⟩⟩

/-- Counterexample to C9 as frozen: on epsilonPoly the first traversed
edge crosses the query height 0 with y-span exactly 1e-9, the divisor
0 - 1e-9 + 1e-9 is exactly zero (also in Python floats), and the function
does not return a boolean (ZeroDivisionError in the source). -/
theorem c9_point_in_polygon_crash : point_in_polygon 0 0 epsilonPoly = none := by
  norm_num [point_in_polygon, polyEdges, pipStep, epsilonPoly, List.rotate]

/-- Claim C5: circle_polygon_collision returns true exactly when the
ray-cast inside test returns true, or the test is defined and some edge
segment lies within distance r of the center (the squared comparison
0 ≤ r ∧ distSq ≤ r² encodes distance ≤ r); and exact tangency counts: at
the test square with center (11,5) and radius 1 the nearest edge is at
squared distance exactly 1² = r², the center is outside, and the function
still reports a collision. -/
theorem c5_circle_polygon_collision_spec :
    (∀ (cx cy r : ℚ) (poly : List (ℚ × ℚ)),
      circle_polygon_collision cx cy r poly = some true ↔
        (point_in_polygon cx cy poly = some true ∨
          ((point_in_polygon cx cy poly).isSome = true ∧
            ∃ e ∈ polyEdges poly, 0 ≤ r ∧
              distSqPointToSegment cx cy e.1.1 e.1.2 e.2.1 e.2.2 ≤ r ^ 2))) ∧
    (circle_polygon_collision 11 5 1 squarePoly = some true ∧
      point_in_polygon 11 5 squarePoly = some false ∧
      distSqPointToSegment 11 5 10 0 10 10 = 1 ^ 2) := by
  constructor
  · intro cx cy r poly
    unfold circle_polygon_collision
    cases hp : point_in_polygon cx cy poly with
    | none => simp [hp]
    | some b =>
      cases b with
      | true => simp [hp]
      | false =>
        simp [hp, List.any_eq_true, Bool.and_eq_true, decide_eq_true_eq]
  · refine ⟨?_, ?_, ?_⟩
    · norm_num [circle_polygon_collision, point_in_polygon, polyEdges, squarePoly,
        List.rotate, pipStep, distSqPointToSegment]
    · norm_num [point_in_polygon, polyEdges, squarePoly, List.rotate, pipStep]
    · norm_num [distSqPointToSegment]

/-- An integer y-span can never equal the epsilon 1e-9. -/
theorem int_span_ne_eps (a b : Int) : ((a : ℚ) - (b : ℚ)) ≠ 1 / 1000000000 := by
  intro h
  have h2 : ((1000000000 * (a - b) : Int) : ℚ) = 1 := by
    push_cast
    linarith
  have h3 : (1000000000 * (a - b) : Int) = 1 := by exact_mod_cast h2
  omega

/-- On the game's integer-coordinate polygons the collision test is
always defined: the `Option.getD false` in collideIntPoly never takes its
default. -/
theorem collideIntPoly_defined (cx cy r : ℚ) (poly : List (Int × Int)) :
    (circle_polygon_collision cx cy r
      (poly.map fun p => ((p.1 : ℚ), (p.2 : ℚ)))).isSome = true := by
  have hpip : (point_in_polygon cx cy
      (poly.map fun p => ((p.1 : ℚ), (p.2 : ℚ)))).isSome = true := by
    apply pip_foldlM_isSome
    intro e he _
    have hmem := List.of_mem_zip he
    obtain ⟨h1, h2⟩ := hmem
    rw [List.mem_rotate] at h2
    obtain ⟨p1, _, hp1⟩ := List.mem_map.mp h1
    obtain ⟨p2, _, hp2⟩ := List.mem_map.mp h2
    rw [← hp1, ← hp2]
    exact int_span_ne_eps p1.2 p2.2
  unfold circle_polygon_collision
  cases hp : point_in_polygon cx cy (poly.map fun p => ((p.1 : ℚ), (p.2 : ℚ))) with
  | none => rw [hp] at hpip; exact absurd hpip (by simp)
  | some b => cases b <;> rfl

/-- Witness for C2 (amended) at a concrete draw. -/
theorem c2_tip_x_in_closed_interval_witness :
    16 ≤ tipXDraw 7 ∧ tipXDraw 7 ≤ OBSTACLE_WIDTH - 16 :=
  c2_tip_x_in_closed_interval 7

/-- Witness for C5 at a concrete far-away center: the equivalence
specializes to a closed instance. -/
theorem c5_circle_polygon_collision_spec_witness :
    circle_polygon_collision 20 5 1 squarePoly = some true ↔
      (point_in_polygon 20 5 squarePoly = some true ∨
        ((point_in_polygon 20 5 squarePoly).isSome = true ∧
          ∃ e ∈ polyEdges squarePoly, (0 : ℚ) ≤ 1 ∧
            distSqPointToSegment 20 5 e.1.1 e.1.2 e.2.1 e.2.2 ≤ 1 ^ 2)) :=
  c5_circle_polygon_collision_spec.1 20 5 1 squarePoly
